import Mathlib

/-!
Shallow embedding of the TaskMaster fitness-accountability bot
(src/handlers.py, src/gpt_tasks.py, src/server.py) and proofs about
its workout-commitment state machine: capture sessions, settlement,
deposit forfeiture, the reminder scheduler, the vision-verification
pipeline, the retry wrapper around outbound API calls, deposit
clamping, and the upload relay server.

Conventions of the embedding:
* Python dict `training_form` is modelled by the structure `TrainingForm`
  holding exactly the deposit-related keys the settled claims touch
  (`tf.get(k) or 0` on an int key is the `Int` field itself; a key that
  may be absent or null is an `Option`).
* Wall-clock times of day are minutes since midnight; Python's
  floor division `//` and `%` on ints are `Int.fdiv` / `Int.fmod`.
* A call to an external service that may raise is a value of
  `Option α` (`none` = the call raised); `datetime.now(...)` values are
  passed in as explicit `today` / `now` arguments.
-/

namespace TaskMaster

/-- Deposit-related slice of the per-user `training_form` JSON blob. -/
structure TrainingForm where
  deposit : Int
  deposit_days : Int
  deposit_left : Int
  deposit_forfeit : Bool
  deposit_forfeit_reason : String
  deposit_forfeit_at : Option String
  deposit_started_at : Option String
  deposit_done_dates : List String
  deriving Repr, DecidableEq

/-- Result of `_forfeit_deposit`: the rewritten form plus whether the
user was sent the forfeiture message. -/
structure ForfeitResult where
  tf : TrainingForm
  notified : Bool
  deriving Repr, DecidableEq

/-- `_forfeit_deposit` (handlers.py:714-743): an already-forfeited form or a
non-positive deposit returns early with no write and no message; otherwise
the form is marked forfeited with the reason and timestamp and
`deposit_left` is zeroed. -/
def forfeitDeposit (tf : TrainingForm) (reason : String) (now : String) : ForfeitResult :=
  if tf.deposit_forfeit then ⟨tf, false⟩
  else if tf.deposit ≤ 0 then ⟨tf, false⟩
  else ⟨{ tf with
          deposit_forfeit := true
          deposit_forfeit_reason := reason
          deposit_forfeit_at := some now
          deposit_left := 0 }, true⟩

/-- In-memory capture session (`bot_data["workout_session"][user_id]`). -/
structure WorkoutSession where
  expected : Nat
  results : List Bool
  deriving Repr, DecidableEq

/-- `_ws_get` (handlers.py:79-85): returns the stored session, creating a
fresh one with `expected = 3` and no results when none is stored. -/
def wsGet (s : Option WorkoutSession) : WorkoutSession :=
  s.getD { expected := 3, results := [] }

/-- Pass threshold of `_finalize_workout`:
`expected - 1 if expected >= 3 else expected`. -/
def passThreshold (expected : Nat) : Nat :=
  if 3 ≤ expected then expected - 1 else expected

/-- Forfeiture reason built by `_finalize_workout` on a failed window. -/
def failReason (verified expected : Nat) : String :=
  "недостаточно подтверждённых фото (" ++ toString verified ++ "/" ++ toString expected ++ ")"

/-- Result of `_finalize_workout`: pass verdict, rewritten form, whether the
fail verdict message was sent, and whether the forfeiture message was sent. -/
structure FinalizeResult where
  passed : Bool
  tf : TrainingForm
  failNotified : Bool
  forfeitNotified : Bool
  deriving Repr, DecidableEq

/-- Pass branch of `_finalize_workout` (handlers.py:2110-2140): when
`deposit_days > 0`, default `deposit_started_at` to today and append today
to `deposit_done_dates` unless already present; otherwise leave the form
untouched. -/
def recordDoneDate (tf : TrainingForm) (today : String) : TrainingForm :=
  if 0 < tf.deposit_days then
    let tf1 := { tf with deposit_started_at := some (tf.deposit_started_at.getD today) }
    if today ∈ tf1.deposit_done_dates then tf1
    else { tf1 with deposit_done_dates := tf1.deposit_done_dates ++ [today] }
  else tf

/-- `_finalize_workout` (handlers.py:2082-2167): counts the verified results,
passes iff that count reaches `passThreshold expected`; on pass records
today's commitment, on fail notifies the user and forfeits the deposit. -/
def finalizeWorkout (expected : Nat) (results : List Bool) (tf : TrainingForm)
    (today : String) (now : String) : FinalizeResult :=
  let verified := results.count true
  if passThreshold expected ≤ verified then
    { passed := true, tf := recordDoneDate tf today
      failNotified := false, forfeitNotified := false }
  else
    let fr := forfeitDeposit tf (failReason verified expected) now
    { passed := false, tf := fr.tf, failNotified := true, forfeitNotified := fr.notified }

/-! ### Time parsing and the per-day reminder scheduler -/

/-- Separator accepted by the time regex `(\d{1,2})[:.](\d{2})`. -/
def isSep (c : Char) : Bool := c = ':' ∨ c = '.'

/-- Numeric value of a decimal digit character. -/
def digitVal (c : Char) : Nat := c.toNat - '0'.toNat

/-- One attempt of the regex `(\d{1,2})[:.](\d{2})` anchored at the head of
the character list, with the greedy two-digit hour tried before the
one-digit backtrack, exactly as the regex engine does. -/
def matchTimeAt (l : List Char) : Option (Nat × Nat) :=
  match l with
  | c0 :: c1 :: c2 :: c3 :: c4 :: _ =>
    if c0.isDigit ∧ c1.isDigit ∧ isSep c2 ∧ c3.isDigit ∧ c4.isDigit then
      some (10 * digitVal c0 + digitVal c1, 10 * digitVal c3 + digitVal c4)
    else if c0.isDigit ∧ isSep c1 ∧ c2.isDigit ∧ c3.isDigit then
      some (digitVal c0, 10 * digitVal c2 + digitVal c3)
    else none
  | [c0, c1, c2, c3] =>
    if c0.isDigit ∧ isSep c1 ∧ c2.isDigit ∧ c3.isDigit then
      some (digitVal c0, 10 * digitVal c2 + digitVal c3)
    else none
  | _ => none

/-- Leftmost match of the time regex (`re.search` semantics). -/
def searchTime : List Char → Option (Nat × Nat)
  | [] => none
  | c :: rest =>
    match matchTimeAt (c :: rest) with
    | some r => some r
    | none => searchTime rest

/-- `_parse_time_hhmm` (handlers.py:359-366): first `(\d{1,2})[:.](\d{2})`
match whose fields satisfy `0 <= hh < 24` and `0 <= mm < 60`. -/
def parseTimeHHMM (s : List Char) : Option (Nat × Nat) :=
  match searchTime s with
  | some (hh, mm) => if hh < 24 ∧ mm < 60 then some (hh, mm) else none
  | none => none

/-- Week used by the scheduler (`ORDERED_DAYS`, handlers.py:350). -/
def ORDERED_DAYS : List String := ["mon", "tue", "wed", "thu", "fri", "sat", "sun"]

/-- `day_idx` dict of `_schedule_reminders_per_day` (mon = 0 … sun = 6). -/
def dayIdx (d : String) : Option Int :=
  if d = "mon" then some 0
  else if d = "tue" then some 1
  else if d = "wed" then some 2
  else if d = "thu" then some 3
  else if d = "fri" then some 4
  else if d = "sat" then some 5
  else if d = "sun" then some 6
  else none

/-- `_add_minutes_to_time` (handlers.py:446-450) on minutes-of-day: the new
time of day and the number of calendar days crossed (Python floor div/mod). -/
def addMinutesToTime (t : Int) (minutes : Int) : Int × Int :=
  ((t + minutes).fmod 1440, (t + minutes).fdiv 1440)

/-- Kind of daily callback registered by the scheduler. -/
inductive JobKind where
  | jstart
  | jmid
  | jend
  deriving Repr, DecidableEq

/-- A daily job registered on the job queue (`jq.run_daily`). -/
structure Job where
  user : Nat
  day : String
  kind : JobKind
  timeOfDay : Int
  weekday : Int
  deriving Repr, DecidableEq

/-- Jobs registered for one schedule day by `_schedule_reminders_per_day`
(handlers.py:552-663): skip a day with no entry, no weekday index or an
unparseable time; replace a duration below 1 by the default; then register
the start / mid / end callbacks at the computed times and weekdays. -/
def scheduleDay (userId : Nat) (d : String)
    (perDayTime : String → Option (List Char))
    (perDayDuration : String → Option Int)
    (defaultDurationMin : Int) : List Job :=
  match perDayTime d, dayIdx d with
  | some hhmm, some di =>
    match parseTimeHHMM hhmm with
    | none => []
    | some (hh, mm) =>
      let t : Int := hh * 60 + mm
      let dur := (perDayDuration d).getD defaultDurationMin
      let dur := if dur < 1 then defaultDurationMin else dur
      let mid := addMinutesToTime t (max (dur.fdiv 2) 1)
      let en := addMinutesToTime t dur
      let baseDay := (di + 1).fmod 7
      [ { user := userId, day := d, kind := .jstart, timeOfDay := t, weekday := baseDay },
        { user := userId, day := d, kind := .jmid, timeOfDay := mid.1,
          weekday := (baseDay + mid.2).fmod 7 },
        { user := userId, day := d, kind := .jend, timeOfDay := en.1,
          weekday := (baseDay + en.2).fmod 7 } ]
  | _, _ => []

/-- `_schedule_reminders_per_day`: the jobs registered over the whole week
(the surrounding loop `for d in ORDERED_DAYS`). -/
def scheduleRemindersPerDay (userId : Nat)
    (perDayTime : String → Option (List Char))
    (perDayDuration : String → Option Int)
    (defaultDurationMin : Int) : List Job :=
  ORDERED_DAYS.flatMap (fun d => scheduleDay userId d perDayTime perDayDuration defaultDurationMin)

/-! ### Callback effects and the capture-session state machine -/

/-- Per-user bot state touched by the claims: the capture session, the
`session_active` flag, the pending `{uid}:nostart` timer (with its delay in
minutes), and the stored training form. -/
structure BotState where
  ws : Option WorkoutSession
  sessionActive : Bool
  nostartJob : Option Int
  tf : TrainingForm
  deriving Repr, DecidableEq

/-- `start_cb` (handlers.py:621-637): activates the session, resets and
recreates the capture session, and (re)schedules the 5-minute no-start
timer. -/
def runStartCb (s : BotState) : BotState :=
  { s with sessionActive := true, ws := some (wsGet none), nostartJob := some 5 }

/-- `mid_cb`: re-asserts the session-active flag. -/
def runMidCb (s : BotState) : BotState :=
  { s with sessionActive := true }

/-- `end_cb`: clears the session-active flag. -/
def runEndCb (s : BotState) : BotState :=
  { s with sessionActive := false }

/-- `_no_start_job` (handlers.py:628-637): when the timer is still pending,
consume it; if no photo result has been recorded and the session is still
active, forfeit the deposit with the no-start reason and deactivate the
session. -/
def runNoStartJob (s : BotState) (now : String) : BotState :=
  match s.nostartJob with
  | none => s
  | some _ =>
    let ws := wsGet s.ws
    let s1 := { s with ws := some ws, nostartJob := none }
    if ws.results.length = 0 ∧ s1.sessionActive then
      { s1 with
        tf := (forfeitDeposit s1.tf "не начал тренировку в течение 5 минут" now).tf
        sessionActive := false }
    else s1

/-- `handle_webapp_data`, `single_photo_uploaded` branch
(handlers.py:1953-1988): append the verification result, drop the pending
no-start timer, and finalize (then reset the session and deactivate) exactly
when the result count reaches the session's expected count. The second
component is the result list passed to `_finalize_workout`, if it ran. -/
def stepSinglePhoto (s : BotState) (ok : Bool) (today : String) (now : String) :
    BotState × Option (List Bool) :=
  let ws0 := wsGet s.ws
  let ws := { ws0 with results := ws0.results ++ [ok] }
  let s1 := { s with ws := some ws, nostartJob := none }
  if ws.expected ≤ ws.results.length then
    let fr := finalizeWorkout ws.expected ws.results s1.tf today now
    ({ s1 with tf := fr.tf, ws := none, sessionActive := false }, some ws.results)
  else (s1, none)

/-- `handle_webapp_data`, `workout_set` branch (handlers.py:1991-2023):
with no tokens return unchanged; otherwise append every result and finalize
unconditionally (the `_cancel_timers` inside `_finalize_workout` drops the
no-start timer). -/
def stepWorkoutSet (s : BotState) (oks : List Bool) (today : String) (now : String) :
    BotState × Option (List Bool) :=
  if oks = [] then (s, none)
  else
    let ws0 := wsGet s.ws
    let ws := { ws0 with results := ws0.results ++ oks }
    let fr := finalizeWorkout ws.expected ws.results s.tf today now
    ({ s with ws := none, sessionActive := false, nostartJob := none, tf := fr.tf },
     some ws.results)

/-! ### Photo verification (`verify_task_with_gpt`, `_save_training_photo`) -/

/-- Structured reply extracted from the vision model's JSON
(`success`/`is_home` after `bool(...)` coercion, plus the reason text). -/
structure VerifyReply where
  success : Bool
  is_home : Bool
  reason : String
  deriving Repr, DecidableEq

/-- Fallback reply returned by `verify_task_with_gpt` when anything in its
body raises. -/
def verifyFallback : VerifyReply :=
  { success := false, is_home := false, reason := "Ошибка верификации" }

/-- `verify_task_with_gpt` (gpt_tasks.py:98-162): `outcome` is the attempt to
call the model and extract `success`/`is_home`/`reason` (`none` = the body
raised: missing file, bad mime type, API error); every error is converted to
the strict fallback, so the function never raises. -/
def verifyTaskWithGpt (outcome : Option VerifyReply) : VerifyReply :=
  outcome.getD verifyFallback

/-- A row of the `sets` table as written by `_save_training_photo`. -/
structure SetRow where
  verified : Bool
  gpt_reason : String
  deriving Repr, DecidableEq

/-- `_save_training_photo` (handlers.py:2028-2080) after the verification
reply is in hand: a success outside a home location is demoted to
unverified; the row is inserted with the final flag, which is also the
return value. -/
def saveTrainingPhoto (gpt : VerifyReply) : SetRow × Bool :=
  let verified := gpt.success
  let reason := gpt.reason
  let vr : Bool × String :=
    if verified ∧ ¬gpt.is_home then
      (false, if reason = "" then "Обстановка не похожа на домашнюю" else reason)
    else (verified, reason)
  ({ verified := vr.1, gpt_reason := vr.2 }, vr.1)

/-! ### Deposit clamping and parsing -/

/-- `_clamp_deposit` (handlers.py:751-752): `max(500, min(int(v), 100_000))`. -/
def clampDeposit (v : Int) : Int := max 500 (min v 100000)

/-- `_clamp_deposit` (gpt_tasks.py:20-25) with its default bounds. -/
def clampDepositG (v : Int) : Int := max 500 (min 100000 v)

/-- Leftmost run of at least two consecutive decimal digits, truncated at
six digits: the regex `\d{2,6}` of `_parse_deposit_from_text`. -/
def findDigitRun2to6 : List Char → Option Nat
  | [] => none
  | c0 :: rest =>
    match rest with
    | [] => none
    | c1 :: _ =>
      if c0.isDigit ∧ c1.isDigit then
        some (((c0 :: rest).takeWhile Char.isDigit).take 6 |>.foldl
          (fun acc c => 10 * acc + digitVal c) 0)
      else findDigitRun2to6 rest

/-- `_parse_deposit_from_text` (handlers.py:70-74): drop spaces, search
`\d{2,6}`, clamp the match (or the default when there is none). -/
def parseDepositFromText (s : List Char) (dflt : Int) : Int :=
  match findDigitRun2to6 (s.filter (· ≠ ' ')) with
  | none => clampDeposit dflt
  | some n => clampDeposit n

/-- Leftmost run of one to six decimal digits: the regex `\d{1,6}` used by
the deposit-edit flows (handlers.py:1230-1234, 1710-1715, 1863-1868). -/
def findDigitRun1to6 : List Char → Option Nat
  | [] => none
  | c0 :: rest =>
    if c0.isDigit then
      some (((c0 :: rest).takeWhile Char.isDigit).take 6 |>.foldl
        (fun acc c => 10 * acc + digitVal c) 0)
    else findDigitRun1to6 rest

/-- Amount entered in a deposit-edit flow: drop spaces, search `\d{1,6}`;
on a match the amount is the clamped value, otherwise the flow re-prompts. -/
def depositEditAmount (s : List Char) : Option Int :=
  match findDigitRun1to6 (s.filter (· ≠ ' ')) with
  | none => none
  | some n => some (clampDeposit n)

/-- `_parse_money_to_int` (gpt_tasks.py:28-41) on the string form: the
concatenation of every digit run, i.e. all digit characters in order
(0 when there are none). -/
def parseMoneyToInt (s : List Char) : Int :=
  let ds := s.filter Char.isDigit
  if ds = [] then 0 else (ds.foldl (fun acc c => 10 * acc + digitVal c) (0 : Nat) : Int)

/-! ### Deposit recommendation (`recommend_deposit_with_gpt`) -/

/-- Onboarding-profile slice read by the heuristic fallback of
`recommend_deposit_with_gpt`. `self_rate` is the already-lowercased
`str(profile.get("self_rate") or "").lower()`; `program_price` is the raw
value's string form. -/
structure Profile where
  self_rate : List Char
  per_day_duration : List (String × Int)
  per_day_time : List String
  program_price : List Char
  deriving Repr, DecidableEq

/-- Python substring test `k in s` over character lists. -/
def hasSub : List Char → List Char → Bool
  | [], k => k.isEmpty
  | c :: rest, k => k.isPrefixOf (c :: rest) || hasSub rest k

/-- `any(k in sr for k in [...])`. -/
def hasAnySub (s : List Char) (ks : List (List Char)) : Bool :=
  ks.any (hasSub s)

/-- Recommendation returned by `recommend_deposit_with_gpt`. -/
structure DepositRec where
  deposit : Int
  reason : String
  deriving Repr, DecidableEq

/-- Heuristic fallback of `recommend_deposit_with_gpt`
(gpt_tasks.py:224-270): base 5000, bumps for discipline wording, average
duration (exact rational average standing in for the float), weekly
frequency, and past-program price, then the clamp. -/
def heuristicDeposit (p : Profile) : Int :=
  let dep : Int := 5000
  let dep :=
    if hasAnySub p.self_rate [['н','и','з'], ['п','л','о','х','о'], ['2'], ['3']] then dep + 1500
    else if hasAnySub p.self_rate
      [['в','ы','с'], ['х','о','р','о','ш'], ['8'], ['9'], ['1','0']] then dep - 500
    else dep
  let dep :=
    if p.per_day_duration ≠ [] then
      let total : Int := (p.per_day_duration.map Prod.snd).sum
      let n : Int := max 1 p.per_day_duration.length
      let avg : ℚ := (total : ℚ) / (n : ℚ)
      if 75 ≤ avg then dep + 1000
      else if avg ≤ 30 then dep - 500
      else dep
    else dep
  let freq := p.per_day_time.length
  let dep :=
    if 5 ≤ freq then dep + 1000
    else if freq ≤ 2 then dep - 500
    else dep
  let pp := parseMoneyToInt p.program_price
  let dep :=
    if 10000 ≤ pp then dep + 1000
    else if 0 < pp ∧ pp < 2000 then dep - 500
    else dep
  clampDepositG dep

/-- Reason text attached to the heuristic recommendation (the joined
`why_parts` are irrelevant to the settled claims and are abstracted to the
no-parts default). -/
def heuristicRec (p : Profile) : DepositRec :=
  { deposit := heuristicDeposit p, reason := "Резервная эвристика (ИИ недоступен)" }

/-- Success path of `recommend_deposit_with_gpt` once the model replied with
a raw deposit value and reason: parse the money string, clamp, and default
an empty reason (the post-clamp `dep < 500` re-raise is unreachable). -/
def recommendSuccess (depRaw : List Char) (reasonRaw : String) : DepositRec :=
  { deposit := clampDepositG (parseMoneyToInt depRaw)
    reason := if reasonRaw = "" then "ИИ-рекомендация по анкете" else reasonRaw }

/-! ### The `backoff` retry wrapper (`max_tries=3`) -/

/-- `@backoff.on_exception(..., max_tries=n)`: run the body; on an
exception retry with the next attempt until the tries are exhausted, then
re-raise. `body i` is attempt number `i` (`Except.error` = the body raised). -/
def backoffRun {α : Type} : Nat → (Nat → Except String α) → Nat → Except String α
  | 0, _, _ => .error "no tries"
  | 1, body, i => body i
  | n + 2, body, i =>
    match body i with
    | .ok a => .ok a
    | .error _ => backoffRun (n + 1) body (i + 1)

/-- `.strip()` on a character list. -/
def stripChars (s : List Char) : List Char :=
  ((s.dropWhile (· = ' ')).reverse.dropWhile (· = ' ')).reverse

/-- Post-processing of `generate_gpt_task`'s successful reply:
`text.strip().replace("*", "").replace("_", "").strip()`. -/
def cleanTask (s : List Char) : List Char :=
  stripChars ((stripChars s).filter (fun c => c ≠ '*' ∧ c ≠ '_'))

/-- Body of `generate_gpt_task` (gpt_tasks.py:65-94): the internal
`try/except` converts any API exception into the default task, so the body
never raises. `env i` is the model's reply on attempt `i` (`none` = the
call raised). -/
def generateBody (env : Nat → Option (List Char)) (i : Nat) : Except String (List Char) :=
  .ok (match env i with
       | some text => cleanTask text
       | none => "Фото гантелей".toList)

/-- `generate_gpt_task` as deployed: the body under the 3-try backoff
wrapper. -/
def generateGptTask (env : Nat → Option (List Char)) : Except String (List Char) :=
  backoffRun 3 (generateBody env) 0

/-- Body of `verify_task_with_gpt`: the internal `try/except` converts any
exception into the strict fallback reply, so the body never raises. -/
def verifyBody (env : Nat → Option VerifyReply) (i : Nat) : Except String VerifyReply :=
  .ok (verifyTaskWithGpt (env i))

/-- `verify_task_with_gpt` as deployed: the body under the 3-try backoff
wrapper. -/
def verifyGptCall (env : Nat → Option VerifyReply) : Except String VerifyReply :=
  backoffRun 3 (verifyBody env) 0

/-- Body of `recommend_deposit_with_gpt`: the `except` clause answers with
the heuristic, so the body never raises. `env i` is the extracted
`(deposit, reason)` pair of attempt `i` (`none` = anything in the `try`
raised). -/
def recommendBody (p : Profile) (env : Nat → Option (List Char × String)) (i : Nat) :
    Except String DepositRec :=
  .ok (match env i with
       | some (depRaw, reasonRaw) => recommendSuccess depRaw reasonRaw
       | none => heuristicRec p)

/-- `recommend_deposit_with_gpt` as deployed: the body under the 3-try
backoff wrapper. -/
def recommendDepositWithGpt (p : Profile) (env : Nat → Option (List Char × String)) :
    Except String DepositRec :=
  backoffRun 3 (recommendBody p env) 0

/-- Claim-side reading of the retry wrapper ("retried up to a fixed 3
attempts on exception"): an exception inside the API call propagates to the
wrapper, which then retries with the next attempt. Named after the spec
because it exists only to be compared with `generateGptTask`. -/
def specClaimedGenerate (env : Nat → Option (List Char)) : Except String (List Char) :=
  backoffRun 3
    (fun i => match env i with
      | some text => .ok (cleanTask text)
      | none => .error "api error") 0

/-! ### Rewrites of the training form outside settlement -/

/-- `_update_deposit_in_db` (handlers.py:2239-2259): always rewrite amount
and days; with `restart_window` also clear the done dates, restart the
window and un-forfeit. -/
def updateDepositInDb (tf : TrainingForm) (deposit : Int) (depositDays : Int)
    (restartWindow : Bool) (now : String) : TrainingForm :=
  let tf1 := { tf with deposit := deposit, deposit_days := depositDays }
  if restartWindow then
    { tf1 with
      deposit_done_dates := []
      deposit_started_at := some now
      deposit_forfeit := false
      deposit_forfeit_reason := ""
      deposit_forfeit_at := none
      deposit_left := deposit }
  else tf1

/-- `dep_edit` save step (handlers.py:1731-1748): a full restart with the
entered amount and days. -/
def depEditSave (tf : TrainingForm) (amount : Int) (days : Int) (now : String) : TrainingForm :=
  { tf with
    deposit := amount
    deposit_days := days
    deposit_done_dates := []
    deposit_started_at := some now
    deposit_forfeit := false
    deposit_forfeit_reason := ""
    deposit_forfeit_at := none
    deposit_left := amount }

/-! ### Upload relay server (`server.py`) -/

/-- Relay-server state: the `TOKENS` dict
(`token -> (user_id, path, exp_ts)`) and which stored files exist. -/
structure ServerState where
  tokens : String → Option (Int × String × Int)
  files : String → Bool

/-- Responses of `GET /pull`. -/
inductive PullResp where
  | served (path : String)
  | notFound
  | fileGone
  deriving Repr, DecidableEq

/-- `pull` (server.py:133-158): pop the token before anything else (404 when
absent); on an expired token delete the file and 404; on a missing file 410;
otherwise serve the file and delete it. -/
def pull (s : ServerState) (tok : String) (now : Int) : ServerState × PullResp :=
  match s.tokens tok with
  | none => (s, .notFound)
  | some (_, path, exp) =>
    let s1 : ServerState :=
      { s with tokens := fun t => if t = tok then none else s.tokens t }
    if exp < now then
      ({ s1 with files := fun p => if p = path then false else s1.files p }, .notFound)
    else if ¬s1.files path then (s1, .fileGone)
    else ({ s1 with files := fun p => if p = path then false else s1.files p }, .served path)

/-- `upload` (server.py:101-130): store the fresh token with expiry
`now + TTL` (TTL = 600 s) and create the file. -/
def upload (s : ServerState) (tok : String) (userId : Int) (path : String) (now : Int) :
    ServerState :=
  { s with
    tokens := fun t => if t = tok then some (userId, path, now + 600) else s.tokens t
    files := fun p => if p = path then true else s.files p }

/-! ### Helper lemmas -/

/-- `forfeitDeposit` never touches the recorded done dates. -/
theorem forfeitDeposit_done_dates (tf : TrainingForm) (r n : String) :
    (forfeitDeposit tf r n).tf.deposit_done_dates = tf.deposit_done_dates := by
  unfold forfeitDeposit
  split_ifs <;> rfl

/-- `forfeitDeposit` always leaves the form marked forfeited when the
deposit is positive. -/
theorem forfeitDeposit_marks (tf : TrainingForm) (r n : String) (hdep : 0 < tf.deposit) :
    (forfeitDeposit tf r n).tf.deposit_forfeit = true := by
  unfold forfeitDeposit
  split_ifs with h1 h2
  · exact h1
  · omega
  · rfl

/-- A positive `deposit_days` makes `recordDoneDate` record today. -/
theorem recordDoneDate_mem (tf : TrainingForm) (today : String) (h : 0 < tf.deposit_days) :
    today ∈ (recordDoneDate tf today).deposit_done_dates := by
  simp only [recordDoneDate, if_pos h]
  split_ifs with hmem
  · exact hmem
  · simp

/-! ### Claim theorems -/

/-- Claim C6: deposit forfeiture is idempotent and guarded. When the stored
form is already forfeited, or its deposit is non-positive, `_forfeit_deposit`
leaves the form unchanged and sends no notification; otherwise it marks the
form forfeited with the reason and timestamp and zeroes `deposit_left`; and
applying it twice gives the same stored form as applying it once. -/
theorem forfeit_idempotent_c6 (tf : TrainingForm) (r n r2 n2 : String) :
    (tf.deposit_forfeit = true → forfeitDeposit tf r n = ⟨tf, false⟩) ∧
    (tf.deposit ≤ 0 → forfeitDeposit tf r n = ⟨tf, false⟩) ∧
    (tf.deposit_forfeit = false → 0 < tf.deposit →
      forfeitDeposit tf r n =
        ⟨{ tf with deposit_forfeit := true, deposit_forfeit_reason := r,
                   deposit_forfeit_at := some n, deposit_left := 0 }, true⟩) ∧
    ((forfeitDeposit (forfeitDeposit tf r n).tf r2 n2).tf = (forfeitDeposit tf r n).tf) := by
  refine ⟨fun h => ?_, fun h => ?_, fun h1 h2 => ?_, ?_⟩
  · simp [forfeitDeposit, h]
  · simp [forfeitDeposit, h, not_lt.mpr h]
  · simp only [forfeitDeposit, h1, Bool.false_eq_true, if_false, not_le.mpr h2, if_neg,
      if_false]
  · unfold forfeitDeposit
    split_ifs with h1 h2 <;> simp_all [forfeitDeposit]

/-- Claim C3: a submitted photo is recorded as verified iff the vision
reply yields `success = true` and `is_home = true`; a success outside a home
location, or a verification error (which `verify_task_with_gpt` converts
into its strict fallback), stores the photo with `verified = false` and the
save routine returns `False`. -/
theorem photo_verified_iff_c3 (outcome : Option VerifyReply) :
    ((saveTrainingPhoto (verifyTaskWithGpt outcome)).1.verified = true ↔
      (∃ r, outcome = some r ∧ r.success = true ∧ r.is_home = true)) ∧
    ((saveTrainingPhoto (verifyTaskWithGpt outcome)).2 =
      (saveTrainingPhoto (verifyTaskWithGpt outcome)).1.verified) ∧
    (∀ r, outcome = some r → r.success = true → r.is_home = false →
      (saveTrainingPhoto (verifyTaskWithGpt outcome)).1.verified = false ∧
      (saveTrainingPhoto (verifyTaskWithGpt outcome)).2 = false) ∧
    (outcome = none →
      (saveTrainingPhoto (verifyTaskWithGpt outcome)).1.verified = false ∧
      (saveTrainingPhoto (verifyTaskWithGpt outcome)).2 = false) := by
  cases outcome with
  | none => simp [saveTrainingPhoto, verifyTaskWithGpt, verifyFallback]
  | some r =>
    obtain ⟨s, h, re⟩ := r
    cases s <;> cases h <;>
      simp [saveTrainingPhoto, verifyTaskWithGpt]

/-- Closed witness for C6: a live 1000-unit deposit is forfeited with reason
and timestamp, and a second forfeiture of the same form is a no-op. -/
theorem forfeit_idempotent_c6_witness :
    forfeitDeposit ⟨1000, 7, 1000, false, "", none, none, []⟩ "r" "T" =
      ⟨⟨1000, 7, 0, true, "r", some "T", none, []⟩, true⟩ ∧
    forfeitDeposit ⟨1000, 7, 0, true, "old", some "T0", none, []⟩ "r" "T" =
      ⟨⟨1000, 7, 0, true, "old", some "T0", none, []⟩, false⟩ := by
  have h1 := forfeit_idempotent_c6 ⟨1000, 7, 1000, false, "", none, none, []⟩ "r" "T" "r2" "T2"
  have h2 := forfeit_idempotent_c6 ⟨1000, 7, 0, true, "old", some "T0", none, []⟩ "r" "T" "r2" "T2"
  exact ⟨h1.2.2.1 rfl (by decide), h2.1 rfl⟩

/-- Closed witness for C3: a success reported outside a home location is
stored unverified with a `False` return, and so is a verification error. -/
theorem photo_verified_iff_c3_witness :
    (saveTrainingPhoto (verifyTaskWithGpt (some ⟨true, false, "зал"⟩))).1.verified = false ∧
    (saveTrainingPhoto (verifyTaskWithGpt (some ⟨true, false, "зал"⟩))).2 = false ∧
    (saveTrainingPhoto (verifyTaskWithGpt none)).1.verified = false := by
  have h1 := photo_verified_iff_c3 (some ⟨true, false, "зал"⟩)
  have h2 := photo_verified_iff_c3 none
  have hs := h1.2.2.1 ⟨true, false, "зал"⟩ rfl rfl rfl
  exact ⟨hs.1, hs.2, (h2.2.2.2 rfl).1⟩

/-- Claim C1: a fresh capture session expects 3 shots; settlement counts the
verified results and passes iff that count reaches `expected - 1` when
`expected >= 3` and `expected` otherwise; on pass with a positive
`deposit_days` the current local date is recorded as fulfilled; on fail the
user is notified and the deposit is forfeited. -/
theorem settlement_c1 (results : List Bool) (tf : TrainingForm) (today now : String) :
    (wsGet none).expected = 3 ∧
    (∀ ex : Nat, (finalizeWorkout ex results tf today now).passed = true ↔
      (if 3 ≤ ex then ex - 1 else ex) ≤ results.count true) ∧
    ((finalizeWorkout 3 results tf today now).passed = true → 0 < tf.deposit_days →
      today ∈ (finalizeWorkout 3 results tf today now).tf.deposit_done_dates) ∧
    ((finalizeWorkout 3 results tf today now).passed = false →
      (finalizeWorkout 3 results tf today now).failNotified = true ∧
      (finalizeWorkout 3 results tf today now).tf =
        (forfeitDeposit tf (failReason (results.count true) 3) now).tf ∧
      (0 < tf.deposit →
        (finalizeWorkout 3 results tf today now).tf.deposit_forfeit = true)) := by
  refine ⟨rfl, fun ex => ?_, fun hp hd => ?_, fun hf => ?_⟩
  · simp only [finalizeWorkout, passThreshold]
    split_ifs with h1 h2 <;> simp_all
  · simp only [finalizeWorkout] at hp ⊢
    split_ifs at hp ⊢ with h
    exact recordDoneDate_mem tf today hd
  · simp only [finalizeWorkout] at hf ⊢
    split_ifs at hf ⊢ with h
    exact ⟨rfl, rfl, fun hdep => forfeitDeposit_marks tf _ now hdep⟩

/-- Closed witness for C1 at concrete inputs: two verified photos of three
pass and record the date; one verified of three fails and forfeits. -/
theorem settlement_c1_witness :
    (finalizeWorkout 3 [true, true, false]
      ⟨1000, 7, 1000, false, "", none, none, []⟩ "2026-10-12" "T").passed = true ∧
    "2026-10-12" ∈ (finalizeWorkout 3 [true, true, false]
      ⟨1000, 7, 1000, false, "", none, none, []⟩ "2026-10-12" "T").tf.deposit_done_dates ∧
    (finalizeWorkout 3 [false, false, true]
      ⟨1000, 7, 1000, false, "", none, none, []⟩ "2026-10-12" "T").tf.deposit_forfeit = true := by
  have h1 := settlement_c1 [true, true, false]
    ⟨1000, 7, 1000, false, "", none, none, []⟩ "2026-10-12" "T"
  have h2 := settlement_c1 [false, false, true]
    ⟨1000, 7, 1000, false, "", none, none, []⟩ "2026-10-12" "T"
  have hp : (finalizeWorkout 3 [true, true, false]
      ⟨1000, 7, 1000, false, "", none, none, []⟩ "2026-10-12" "T").passed = true :=
    (h1.2.1 3).mpr (by decide)
  have hf : (finalizeWorkout 3 [false, false, true]
      ⟨1000, 7, 1000, false, "", none, none, []⟩ "2026-10-12" "T").passed = false := by
    have := (h2.2.1 3).not
    simp only [List.count] at this ⊢
    by_contra hc
    simp only [Bool.not_eq_false] at hc
    exact absurd ((h2.2.1 3).mp hc) (by decide)
  exact ⟨hp, h1.2.2.1 hp (by decide), (h2.2.2.2 hf).2.2 (by decide)⟩

/-- Every job registered for schedule day `d` carries `d` as its day tag. -/
theorem scheduleDay_day {u : Nat} {d : String} {pt : String → Option (List Char)}
    {pd : String → Option Int} {dd : Int} {j : Job}
    (hj : j ∈ scheduleDay u d pt pd dd) : j.day = d := by
  simp only [scheduleDay] at hj
  split at hj
  · split at hj
    · simp at hj
    · simp only [List.mem_cons, List.mem_singleton] at hj
      rcases hj with rfl | rfl | rfl | h
      · rfl
      · rfl
      · rfl
      · simp at h
  · simp at hj

/-- Filtering the jobs of day `d` by day `d` keeps them all. -/
theorem filter_scheduleDay_self (u : Nat) (d : String) (pt : String → Option (List Char))
    (pd : String → Option Int) (dd : Int) :
    (scheduleDay u d pt pd dd).filter (fun j => j.day == d) = scheduleDay u d pt pd dd :=
  List.filter_eq_self.mpr (fun j hj => by simp [scheduleDay_day hj])

/-- Filtering the jobs of a different day by day `d` drops them all. -/
theorem filter_scheduleDay_ne (u : Nat) (d' d : String) (pt : String → Option (List Char))
    (pd : String → Option Int) (dd : Int) (h : d' ≠ d) :
    (scheduleDay u d' pt pd dd).filter (fun j => j.day == d) = [] := by
  rw [List.filter_eq_nil_iff]
  intro j hj
  simp [scheduleDay_day hj, h]

/-- Days absent from the iterated list contribute no jobs tagged `d`. -/
theorem filter_flatMap_not_mem (u : Nat) (d : String) (pt : String → Option (List Char))
    (pd : String → Option Int) (dd : Int) :
    ∀ L : List String, d ∉ L →
      (L.flatMap (fun x => scheduleDay u x pt pd dd)).filter (fun j => j.day == d) = []
  | [], _ => rfl
  | a :: L, h => by
    have h' : d ≠ a ∧ d ∉ L := by simpa using h
    rw [List.flatMap_cons, List.filter_append,
      filter_scheduleDay_ne u a d pt pd dd (fun e => h'.1 e.symm),
      filter_flatMap_not_mem u d pt pd dd L h'.2]
    rfl

/-- Over a duplicate-free day list containing `d`, the jobs tagged `d` are
exactly the jobs registered for schedule day `d`. -/
theorem filter_flatMap_mem (u : Nat) (d : String) (pt : String → Option (List Char))
    (pd : String → Option Int) (dd : Int) :
    ∀ L : List String, L.Nodup → d ∈ L →
      (L.flatMap (fun x => scheduleDay u x pt pd dd)).filter (fun j => j.day == d) =
        scheduleDay u d pt pd dd
  | [], _, hm => by simp at hm
  | a :: L, hn, hm => by
    rw [List.flatMap_cons, List.filter_append]
    rcases List.mem_cons.mp hm with heq | hm2
    · subst heq
      rw [filter_scheduleDay_self,
        filter_flatMap_not_mem u d pt pd dd L (List.nodup_cons.mp hn).1, List.append_nil]
    · have hne : a ≠ d := fun e => (List.nodup_cons.mp hn).1 (e ▸ hm2)
      rw [filter_scheduleDay_ne u a d pt pd dd hne,
        filter_flatMap_mem u d pt pd dd L (List.nodup_cons.mp hn).2 hm2, List.nil_append]

/-- A day with a weekday index is one of the seven scheduled days. -/
theorem dayIdx_mem {d : String} {i : Int} (h : dayIdx d = some i) : d ∈ ORDERED_DAYS := by
  unfold dayIdx at h
  split_ifs at h with h1 h2 h3 h4 h5 h6 h7 <;>
    simp_all [ORDERED_DAYS]

/-- Claim C2: for a schedule day whose time parses as HH:MM and whose
duration is at least 1 minute, the scheduler registers exactly three daily
callbacks — start at the scheduled time on the base weekday, mid at
start + max(dur div 2, 1) and end at start + dur, each with the weekday
shifted forward modulo 7 by the days crossed — and the start and mid
callbacks set the session-active flag while the end callback clears it. -/
theorem scheduler_three_jobs_c2 (u : Nat) (pt : String → Option (List Char))
    (pd : String → Option Int) (dd : Int) (d : String) (di : Int) (s : List Char)
    (hh mm : Nat) (dur : Int) (hd : dayIdx d = some di) (hs : pt d = some s)
    (hp : parseTimeHHMM s = some (hh, mm)) (hdur : pd d = some dur) (h1 : 1 ≤ dur) :
    ((scheduleRemindersPerDay u pt pd dd).filter (fun j => j.day == d) =
      [ { user := u, day := d, kind := .jstart, timeOfDay := (hh : Int) * 60 + mm,
          weekday := (di + 1).fmod 7 },
        { user := u, day := d, kind := .jmid,
          timeOfDay := ((hh : Int) * 60 + mm + max (dur.fdiv 2) 1).fmod 1440,
          weekday := ((di + 1).fmod 7 +
            ((hh : Int) * 60 + mm + max (dur.fdiv 2) 1).fdiv 1440).fmod 7 },
        { user := u, day := d, kind := .jend,
          timeOfDay := ((hh : Int) * 60 + mm + dur).fmod 1440,
          weekday := ((di + 1).fmod 7 +
            ((hh : Int) * 60 + mm + dur).fdiv 1440).fmod 7 } ]) ∧
    (∀ st : BotState, (runStartCb st).sessionActive = true ∧
      (runMidCb st).sessionActive = true ∧ (runEndCb st).sessionActive = false) := by
  constructor
  · rw [scheduleRemindersPerDay,
      filter_flatMap_mem u d pt pd dd ORDERED_DAYS (by decide) (dayIdx_mem hd)]
    simp only [scheduleDay, hs, hd, hp, hdur, Option.getD_some]
    rw [if_neg (by omega)]
    simp [addMinutesToTime]
  · intro st
    exact ⟨rfl, rfl, rfl⟩

/-- Closed witness for C2: Monday at 23:30 for 90 minutes yields start
23:30 Mon(jq-day 1), mid 00:15 and end 01:00 on the next jq weekday. -/
theorem scheduler_three_jobs_c2_witness :
    (scheduleRemindersPerDay 7
        (fun d => if d = "mon" then some "23:30".toList else none)
        (fun d => if d = "mon" then some 90 else none) 60).filter
      (fun j => j.day == "mon") =
      [ { user := 7, day := "mon", kind := .jstart, timeOfDay := 1410, weekday := 1 },
        { user := 7, day := "mon", kind := .jmid, timeOfDay := 15, weekday := 2 },
        { user := 7, day := "mon", kind := .jend, timeOfDay := 60, weekday := 2 } ] := by
  have h := scheduler_three_jobs_c2 7
    (fun d => if d = "mon" then some "23:30".toList else none)
    (fun d => if d = "mon" then some 90 else none) 60 "mon" 0 "23:30".toList 23 30 90
    (by decide) (by simp) (by decide) (by simp) (by decide)
  rw [h.1]
  decide

/-- Claim C4, counterexample: through the `workout_set` branch a session is
finalized after a single recorded result, fewer than the expected 3 — so
settlement does not run only once the expected shot count is reached. -/
theorem settlement_early_c4_counterexample :
    (stepWorkoutSet
      { ws := none, sessionActive := true, nostartJob := some 5,
        tf := ⟨1000, 7, 1000, false, "", none, none, []⟩ }
      [true] "2026-10-12" "T").2 = some [true] ∧
    ([true] : List Bool).length < (wsGet none).expected := by
  exact ⟨rfl, by decide⟩

/-- Claim C4 as amended: in the single-photo branch the session is finalized
exactly when the appended result count reaches the session's expected count
and never before, and the finalized results are the recorded ones; but the
`workout_set` branch finalizes any non-empty batch immediately, with however
many results have been recorded. -/
theorem settlement_when_expected_c4 (s : BotState) (ok : Bool) (oks : List Bool)
    (today now : String) :
    ((stepSinglePhoto s ok today now).2 =
      if (wsGet s.ws).expected ≤ (wsGet s.ws).results.length + 1
      then some ((wsGet s.ws).results ++ [ok]) else none) ∧
    ((wsGet s.ws).results.length + 1 < (wsGet s.ws).expected →
      (stepSinglePhoto s ok today now).2 = none) ∧
    (oks ≠ [] → (stepWorkoutSet s oks today now).2 = some ((wsGet s.ws).results ++ oks)) := by
  refine ⟨?_, fun hlt => ?_, fun hne => ?_⟩
  · simp only [stepSinglePhoto, List.length_append, List.length_singleton]
    split_ifs with h <;> rfl
  · simp only [stepSinglePhoto, List.length_append, List.length_singleton]
    rw [if_neg (by omega)]
  · simp only [stepWorkoutSet, if_neg hne]

/-- Closed witness for the amended C4: the first two single photos do not
finalize, the third does, and a two-photo batch finalizes at two results. -/
theorem settlement_when_expected_c4_witness :
    (stepSinglePhoto
      { ws := some ⟨3, [true]⟩, sessionActive := true, nostartJob := none,
        tf := ⟨1000, 7, 1000, false, "", none, none, []⟩ }
      true "2026-10-12" "T").2 = none ∧
    (stepSinglePhoto
      { ws := some ⟨3, [true, true]⟩, sessionActive := true, nostartJob := none,
        tf := ⟨1000, 7, 1000, false, "", none, none, []⟩ }
      false "2026-10-12" "T").2 = some [true, true, false] ∧
    (stepWorkoutSet
      { ws := none, sessionActive := true, nostartJob := none,
        tf := ⟨1000, 7, 1000, false, "", none, none, []⟩ }
      [true, false] "2026-10-12" "T").2 = some [true, false] := by
  refine ⟨?_, ?_, ?_⟩
  · exact (settlement_when_expected_c4
      { ws := some ⟨3, [true]⟩, sessionActive := true, nostartJob := none,
        tf := ⟨1000, 7, 1000, false, "", none, none, []⟩ }
      true [] "2026-10-12" "T").2.1 (by decide)
  · have h := (settlement_when_expected_c4
      { ws := some ⟨3, [true, true]⟩, sessionActive := true, nostartJob := none,
        tf := ⟨1000, 7, 1000, false, "", none, none, []⟩ }
      false [] "2026-10-12" "T").1
    simpa [wsGet] using h
  · exact (settlement_when_expected_c4
      { ws := none, sessionActive := true, nostartJob := none,
        tf := ⟨1000, 7, 1000, false, "", none, none, []⟩ }
      true [true, false] "2026-10-12" "T").2.2 (by decide)

/-- Claim C5: the start callback schedules the 5-minute no-start timer;
if it fires with no recorded photo result while the session is active, the
deposit is forfeited with the no-start reason and the session deactivated;
recording a single photo removes the pending timer; and with any recorded
result the timer's body leaves the form and the active flag untouched. -/
theorem nostart_timeout_c5 (s : BotState) (ok : Bool) (today now : String) :
    ((runStartCb s).nostartJob = some 5) ∧
    (s.nostartJob.isSome = true → (wsGet s.ws).results = [] → s.sessionActive = true →
      (runNoStartJob s now).tf =
        (forfeitDeposit s.tf "не начал тренировку в течение 5 минут" now).tf ∧
      (runNoStartJob s now).sessionActive = false ∧
      (0 < s.tf.deposit → (runNoStartJob s now).tf.deposit_forfeit = true)) ∧
    ((stepSinglePhoto s ok today now).1.nostartJob = none) ∧
    ((wsGet s.ws).results ≠ [] → (runNoStartJob s now).tf = s.tf ∧
      (runNoStartJob s now).sessionActive = s.sessionActive) := by
  refine ⟨rfl, fun hjob hres hact => ?_, ?_, fun hres => ?_⟩
  · rcases hj : s.nostartJob with _ | delay
    · rw [hj] at hjob; simp at hjob
    · simp only [runNoStartJob, hj]
      rw [if_pos (by simp [hres, hact])]
      exact ⟨rfl, rfl, fun hdep => forfeitDeposit_marks s.tf _ now hdep⟩
  · simp only [stepSinglePhoto]
    split_ifs <;> rfl
  · rcases hj : s.nostartJob with _ | delay
    · simp [runNoStartJob, hj]
    · simp only [runNoStartJob, hj]
      rw [if_neg (by simp [hres])]
      exact ⟨rfl, rfl⟩

/-- Closed witness for C5: a pending timer over an empty fresh session
forfeits a 1000-unit deposit and deactivates; after one recorded photo the
timer is gone and a later firing changes nothing. -/
theorem nostart_timeout_c5_witness :
    (runNoStartJob
      { ws := some ⟨3, []⟩, sessionActive := true, nostartJob := some 5,
        tf := ⟨1000, 7, 1000, false, "", none, none, []⟩ } "T").tf.deposit_forfeit = true ∧
    (runNoStartJob
      { ws := some ⟨3, []⟩, sessionActive := true, nostartJob := some 5,
        tf := ⟨1000, 7, 1000, false, "", none, none, []⟩ } "T").sessionActive = false ∧
    (stepSinglePhoto
      { ws := some ⟨3, []⟩, sessionActive := true, nostartJob := some 5,
        tf := ⟨1000, 7, 1000, false, "", none, none, []⟩ }
      true "2026-10-12" "T").1.nostartJob = none ∧
    (runNoStartJob
      { ws := some ⟨3, [true]⟩, sessionActive := true, nostartJob := some 5,
        tf := ⟨1000, 7, 1000, false, "", none, none, []⟩ } "T").tf =
      ⟨1000, 7, 1000, false, "", none, none, []⟩ := by
  have h := nostart_timeout_c5
    { ws := some ⟨3, []⟩, sessionActive := true, nostartJob := some 5,
      tf := ⟨1000, 7, 1000, false, "", none, none, []⟩ } true "2026-10-12" "T"
  have h2 := nostart_timeout_c5
    { ws := some ⟨3, [true]⟩, sessionActive := true, nostartJob := some 5,
      tf := ⟨1000, 7, 1000, false, "", none, none, []⟩ } true "2026-10-12" "T"
  have hfire := h.2.1 (by decide) (by decide) (by decide)
  exact ⟨hfire.2.2 (by decide), hfire.2.1, h.2.2.1, (h2.2.2.2 (by decide)).1⟩

/-- `finalizeWorkout` keeps the done dates unchanged on fail and appends at
most one fresh date on pass, so it preserves the no-duplicates invariant. -/
theorem finalizeWorkout_nodup (ex : Nat) (results : List Bool) (tf : TrainingForm)
    (today now : String) (h : tf.deposit_done_dates.Nodup) :
    (finalizeWorkout ex results tf today now).tf.deposit_done_dates.Nodup := by
  simp only [finalizeWorkout]
  split_ifs with hp
  · simp only [recordDoneDate]
    split_ifs with hd hmem
    · exact h
    · simp [List.nodup_append, h, hmem]
    · exact h
  · rw [forfeitDeposit_done_dates]
    exact h

/-- Recording the same date twice records it once. -/
theorem recordDoneDate_idem (tf : TrainingForm) (today : String) :
    (recordDoneDate (recordDoneDate tf today) today).deposit_done_dates =
    (recordDoneDate tf today).deposit_done_dates := by
  by_cases hd : 0 < tf.deposit_days
  · by_cases hmem : today ∈ tf.deposit_done_dates
    · simp [recordDoneDate, hd, hmem]
    · simp [recordDoneDate, hd, hmem]
  · simp [recordDoneDate, hd]

/-- Claim C7: `deposit_done_dates` stays duplicate-free across every rewrite
of the training form — settlement, the deposit-edit restart, the
`_update_deposit_in_db` rewrite (with or without a window restart) and
forfeiture — and a second successful settlement on the same calendar date
leaves the recorded dates unchanged. -/
theorem done_dates_nodup_c7 (ex : Nat) (results : List Bool) (tf : TrainingForm)
    (today now now2 r : String) (dep days : Int) (restart : Bool) :
    (tf.deposit_done_dates.Nodup →
      (finalizeWorkout ex results tf today now).tf.deposit_done_dates.Nodup) ∧
    ((finalizeWorkout ex results tf today now).passed = true →
      (finalizeWorkout ex results
        (finalizeWorkout ex results tf today now).tf today now2).tf.deposit_done_dates =
      (finalizeWorkout ex results tf today now).tf.deposit_done_dates) ∧
    (tf.deposit_done_dates.Nodup →
      (updateDepositInDb tf dep days restart now).deposit_done_dates.Nodup) ∧
    ((depEditSave tf dep days now).deposit_done_dates.Nodup) ∧
    (tf.deposit_done_dates.Nodup →
      (forfeitDeposit tf r now).tf.deposit_done_dates.Nodup) := by
  refine ⟨finalizeWorkout_nodup ex results tf today now, fun hp => ?_, fun h => ?_, ?_,
    fun h => ?_⟩
  · have hpass : passThreshold ex ≤ results.count true := by
      by_contra hc
      simp [finalizeWorkout, hc] at hp
    simp only [finalizeWorkout, if_pos hpass]
    exact recordDoneDate_idem tf today
  · simp only [updateDepositInDb]
    split_ifs
    · exact List.nodup_nil
    · exact h
  · exact List.nodup_nil
  · rw [forfeitDeposit_done_dates]
    exact h

/-- Closed witness for C7: settling twice on the same date records the date
once, and the restart flows clear the list. -/
theorem done_dates_nodup_c7_witness :
    (finalizeWorkout 3 [true, true, true]
      (finalizeWorkout 3 [true, true, true]
        ⟨1000, 7, 1000, false, "", none, none, []⟩ "2026-10-12" "T").tf
      "2026-10-12" "T2").tf.deposit_done_dates = ["2026-10-12"] ∧
    (updateDepositInDb ⟨1000, 7, 1000, false, "", none, none, ["2026-10-11"]⟩
      2000 14 true "T").deposit_done_dates.Nodup := by
  have h := done_dates_nodup_c7 3 [true, true, true]
    ⟨1000, 7, 1000, false, "", none, none, []⟩ "2026-10-12" "T" "T2" "r" 2000 14 true
  have h2 := done_dates_nodup_c7 3 [true, true, true]
    ⟨1000, 7, 1000, false, "", none, none, ["2026-10-11"]⟩ "2026-10-12" "T" "T2" "r"
    2000 14 true
  refine ⟨?_, h2.2.2.1 (by decide)⟩
  rw [h.2.1 (by decide)]
  decide

/-- Claim C8, counterexample: with an API that raises on the first attempt
and would answer on the second, the deployed `generate_gpt_task` returns the
fallback task — under the claimed retry-on-exception reading
(`specClaimedGenerate`) it would have returned the second attempt's text —
so no retry happens on exception. -/
theorem retry_c8_counterexample :
    generateGptTask (fun i => if i = 0 then none else some "Фото жима штанги".toList) =
      .ok "Фото гантелей".toList ∧
    specClaimedGenerate (fun i => if i = 0 then none else some "Фото жима штанги".toList) =
      .ok "Фото жима штанги".toList ∧
    ("Фото гантелей".toList ≠ "Фото жима штанги".toList) := by
  refine ⟨rfl, rfl, by decide⟩

/-- Claim C8 as amended: each outbound call consumes exactly one attempt —
the internal exception handler converts a failed attempt into the fallback
(default task string, strict `success=false` verification reply, heuristic
deposit recommendation) so the body never raises and the 3-try backoff
wrapper never retries; the deployed call never raises either. -/
theorem retry_c8_amended (p : Profile) (envG : Nat → Option (List Char))
    (envV : Nat → Option VerifyReply) (envR : Nat → Option (List Char × String)) :
    (generateGptTask envG = generateBody envG 0) ∧
    (envG 0 = none → generateGptTask envG = .ok "Фото гантелей".toList) ∧
    (verifyGptCall envV = .ok (verifyTaskWithGpt (envV 0))) ∧
    (envV 0 = none → verifyGptCall envV = .ok verifyFallback) ∧
    (recommendDepositWithGpt p envR = recommendBody p envR 0) ∧
    (envR 0 = none → recommendDepositWithGpt p envR = .ok (heuristicRec p)) := by
    refine ⟨rfl, fun h => ?_, rfl, fun h => ?_, rfl, fun h => ?_⟩
    · simp [generateGptTask, backoffRun, generateBody, h]
    · simp [verifyGptCall, backoffRun, verifyBody, verifyTaskWithGpt, h]
    · simp [recommendDepositWithGpt, backoffRun, recommendBody, h]

/-- Closed witness for the amended C8: all three calls on an environment
whose first attempt raises return their fallbacks. -/
theorem retry_c8_amended_witness :
    generateGptTask (fun _ => none) = .ok "Фото гантелей".toList ∧
    verifyGptCall (fun _ => none) = .ok verifyFallback ∧
    recommendDepositWithGpt ⟨[], [], [], []⟩ (fun _ => none) =
      .ok (heuristicRec ⟨[], [], [], []⟩) := by
  have h := retry_c8_amended ⟨[], [], [], []⟩ (fun _ => none) (fun _ => none) (fun _ => none)
  exact ⟨h.2.1 rfl, h.2.2.2.1 rfl, h.2.2.2.2.2 rfl⟩

/-- The handlers-side clamp lands in [500, 100000]. -/
theorem clampDeposit_range (v : Int) : 500 ≤ clampDeposit v ∧ clampDeposit v ≤ 100000 := by
  simp only [clampDeposit, Int.max_def, Int.min_def]
  split_ifs <;> omega

/-- The gpt-side clamp lands in [500, 100000]. -/
theorem clampDepositG_range (v : Int) : 500 ≤ clampDepositG v ∧ clampDepositG v ≤ 100000 := by
  simp only [clampDepositG, Int.max_def, Int.min_def]
  split_ifs <;> omega

/-- Claim C9: every deposit amount the system stores or recommends lies in
[500, 100000] — both clamps, amounts parsed from free onboarding text,
amounts entered in the deposit-edit flows, the model-supplied
recommendation after its clamp, and the fallback heuristic. -/
theorem deposit_range_c9 (v d : Int) (s s2 dep : List Char) (reason : String)
    (amt : Int) (p : Profile) :
    (500 ≤ clampDeposit v ∧ clampDeposit v ≤ 100000) ∧
    (500 ≤ clampDepositG v ∧ clampDepositG v ≤ 100000) ∧
    (500 ≤ parseDepositFromText s d ∧ parseDepositFromText s d ≤ 100000) ∧
    (depositEditAmount s2 = some amt → 500 ≤ amt ∧ amt ≤ 100000) ∧
    (500 ≤ (recommendSuccess dep reason).deposit ∧
      (recommendSuccess dep reason).deposit ≤ 100000) ∧
    (500 ≤ heuristicDeposit p ∧ heuristicDeposit p ≤ 100000) := by
  refine ⟨clampDeposit_range v, clampDepositG_range v, ?_, fun h => ?_, ?_, ?_⟩
  · unfold parseDepositFromText
    rcases findDigitRun2to6 (s.filter (· ≠ ' ')) with _ | n
    · exact clampDeposit_range d
    · exact clampDeposit_range n
  · unfold depositEditAmount at h
    rcases hf : findDigitRun1to6 (s2.filter (· ≠ ' ')) with _ | n <;> rw [hf] at h
    · simp at h
    · simp only [Option.some.injEq] at h
      exact h ▸ clampDeposit_range n
  · exact clampDepositG_range _
  · simp only [heuristicDeposit]
    exact clampDepositG_range _

/-- Closed witness for C9: an out-of-range free-text amount is clamped and
an edited amount comes back clamped. -/
theorem deposit_range_c9_witness :
    (500 ≤ parseDepositFromText "хочу 200000 руб".toList 5000 ∧
      parseDepositFromText "хочу 200000 руб".toList 5000 ≤ 100000) ∧
    (500 ≤ (500 : Int) ∧ (500 : Int) ≤ 100000) := by
  have h := deposit_range_c9 42 5000 "хочу 200000 руб".toList "42".toList
    "6500".toList "r" 500 ⟨[], [], [], []⟩
  exact ⟨h.2.2.1, h.2.2.2.1 (by decide)⟩

/-- Claim C10: `GET /pull` pops the token before serving, so any second
request with the same token receives 404; an upload stores the token with a
10-minute expiry; and a request with an expired token receives 404 while the
stored file is deleted instead of served. -/
theorem pull_once_c10 (s : ServerState) (tok : String) (uid : Int) (path : String)
    (exp now now2 : Int) :
    ((pull (pull s tok now).1 tok now2).2 = .notFound) ∧
    (s.tokens tok = some (uid, path, exp) → (pull s tok now).1.tokens tok = none) ∧
    (s.tokens tok = some (uid, path, exp) → exp < now →
      (pull s tok now).2 = .notFound ∧ (pull s tok now).1.files path = false) ∧
    ((upload s tok uid path now).tokens tok = some (uid, path, now + 600)) := by
  refine ⟨?_, fun h => ?_, fun h hexp => ?_, by simp [upload]⟩
  · rcases htok : s.tokens tok with _ | ⟨uid2, path2, exp2⟩
    · simp [pull, htok]
    · simp only [pull, htok]
      split_ifs <;> simp [pull]
  · simp only [pull, h]
    split_ifs <;> simp
  · simp only [pull, h, if_pos hexp]
    simp

/-- Closed witness for C10: on a one-token server, pulling twice yields 404
the second time, and pulling after the expiry deletes the file and yields
404. -/
theorem pull_once_c10_witness :
    (pull (pull
      { tokens := fun t => if t = "tok1" then some (5, "f.jpg", 100) else none,
        files := fun p => p = "f.jpg" }
      "tok1" 50).1 "tok1" 51).2 = .notFound ∧
    (pull
      { tokens := fun t => if t = "tok1" then some (5, "f.jpg", 100) else none,
        files := fun p => p = "f.jpg" }
      "tok1" 200).2 = .notFound ∧
    (pull
      { tokens := fun t => if t = "tok1" then some (5, "f.jpg", 100) else none,
        files := fun p => p = "f.jpg" }
      "tok1" 200).1.files "f.jpg" = false := by
  have h1 := pull_once_c10
    { tokens := fun t => if t = "tok1" then some (5, "f.jpg", 100) else none,
      files := fun p => p = "f.jpg" } "tok1" 5 "f.jpg" 100 50 51
  have h2 := pull_once_c10
    { tokens := fun t => if t = "tok1" then some (5, "f.jpg", 100) else none,
      files := fun p => p = "f.jpg" } "tok1" 5 "f.jpg" 100 200 0
  have hexp := h2.2.2.1 (by simp) (by decide)
  exact ⟨h1.1, hexp.1, hexp.2⟩

end TaskMaster
